import Mathlib

/-!
Verification development for the very-lite-camera recording session
controller.  The repository ships two Kotlin files embedded in a
scaffolding script; the component with nontrivial semantics is
`RecordingService` (start/stop of a MediaRecorder capture, a periodic
beep timer, a foreground notification) together with the permission
handling in `MainActivity`.  We give a shallow embedding: the mutable
service fields become a state record, each Kotlin method becomes a pure
state-transition function, and platform calls that can throw
(`MediaRecorder.stop`, and the configure/prepare/start chain) are driven
by explicit Boolean environment flags.  Instrumentation fields (the list
of live, unreleased handles, the list of released handles, the pending
timer callback, the posted notification texts, the beep count) record
the resource effects the specification talks about.
-/

namespace VLC

/-- State of `RecordingService`.  The first four fields are the mutable
fields of the Kotlin class (`mediaRecorder`, `beepRunnable`,
`isRecording`, `outputFile`); the remaining fields instrument the
platform: `nextHandle` numbers MediaRecorder instances, `live` lists the
handles acquired (constructed) and not yet released, `released` lists
the handles on which `release()` has run, `pendingTick` records whether
a beep callback is scheduled on the handler, `notifications` the texts
posted via `startForeground`, `beeps` the number of `playBeep` side
effects, `stopSelfCalls` the number of `stopSelf()` invocations. -/
structure RecState where
  mediaRecorder : Option Nat
  beepRunnable : Bool
  isRecording : Bool
  outputFile : Option String
  nextHandle : Nat
  live : List Nat
  released : List Nat
  pendingTick : Bool
  notifications : List String
  beeps : Nat
  stopSelfCalls : Nat
deriving Repr, DecidableEq

/-- Initial state: all fields of the freshly created service are
null/false, nothing acquired, nothing scheduled. -/
def init : RecState :=
  { mediaRecorder := none
    beepRunnable := false
    isRecording := false
    outputFile := none
    nextHandle := 0
    live := []
    released := []
    pendingTick := false
    notifications := []
    beeps := 0
    stopSelfCalls := 0 }

/-- Embedding of `RecordingService.stopBeepTimer`: when `beepRunnable`
is non-null the scheduled callback is removed from the handler
(`handler.removeCallbacks`), then `beepRunnable` is set to null.  When
`beepRunnable` is already null, `removeCallbacks` is not invoked. -/
def stopBeepTimer (s : RecState) : RecState :=
  if s.beepRunnable then
    { s with pendingTick := false, beepRunnable := false }
  else
    { s with beepRunnable := false }

/-- Embedding of `RecordingService.startBeepTimer`: creates a runnable
and schedules it on the handler with `postDelayed`. -/
def startBeepTimer (s : RecState) : RecState :=
  { s with beepRunnable := true, pendingTick := true }

/-- Embedding of `RecordingService.stopRecording`.  The body is one
try/catch: `stopBeepTimer()`, then `mediaRecorder?.apply { stop();
reset(); release() }`, then `mediaRecorder = null; isRecording = false`.
The environment flag `stopOk` says whether `MediaRecorder.stop()`
returns normally; when it throws, the exception is caught by the
enclosing catch, so `reset()`, `release()` and the two field resets do
not run. -/
def stopRecording (stopOk : Bool) (s : RecState) : RecState :=
  let s1 := stopBeepTimer s
  match s1.mediaRecorder with
  | none =>
      { s1 with mediaRecorder := none, isRecording := false }
  | some h =>
      if stopOk then
        { s1 with
            live := s1.live.erase h
            released := s1.released ++ [h]
            mediaRecorder := none
            isRecording := false }
      else
        s1

/-- Embedding of `RecordingService.startRecording`.  In the try block:
the timestamp is formatted and `outputFile` assigned (these platform
calls do not throw), a MediaRecorder is constructed (acquiring a native
handle) and stored in `mediaRecorder`, then the configure / `prepare()`
/ `start()` chain runs — `applyOk` says whether it completes without
throwing.  On success `isRecording` is set, the beep timer started, and
`startForeground` posts the notification text.  On an exception the
catch block calls `stopRecording()`, whose own `stop()` outcome is the
flag `cleanupStopOk`. -/
def startRecording (ts : String) (applyOk cleanupStopOk : Bool)
    (s : RecState) : RecState :=
  let s1 := { s with outputFile := some ("VID_" ++ ts ++ ".mp4") }
  let h := s1.nextHandle
  let s2 := { s1 with
                nextHandle := h + 1
                live := s1.live ++ [h]
                mediaRecorder := some h }
  if applyOk then
    let s3 := startBeepTimer { s2 with isRecording := true }
    { s3 with notifications := s3.notifications ++ ["Recording..."] }
  else
    stopRecording cleanupStopOk s2

/-- Android service restart policy constant returned by
`onStartCommand`. -/
def START_STICKY : Int := 1

/-- A command delivered to `onStartCommand`.  `start` carries the
formatted timestamp (the value `SimpleDateFormat` produced) and the two
environment flags of `startRecording`; `stop` carries the
`MediaRecorder.stop()` outcome; `other` is any intent whose action is
neither `ACTION_START_RECORDING` nor `ACTION_STOP_RECORDING`, including
the null intent of a sticky restart. -/
inductive Cmd where
  | start (ts : String) (applyOk cleanupStopOk : Bool)
  | stop (stopOk : Bool)
  | other
deriving Repr, DecidableEq

/-- Embedding of `RecordingService.onStartCommand`: dispatch on
`intent?.action`; a start command is guarded by `!isRecording`; a stop
command runs `stopRecording()` then `stopSelf()`; anything else falls
through.  Always returns `START_STICKY`. -/
def onStartCommand (c : Cmd) (s : RecState) : RecState × Int :=
  match c with
  | .start ts applyOk cleanupStopOk =>
      (if s.isRecording then s else startRecording ts applyOk cleanupStopOk s,
       START_STICKY)
  | .stop stopOk =>
      let s1 := stopRecording stopOk s
      ({ s1 with stopSelfCalls := s1.stopSelfCalls + 1 }, START_STICKY)
  | .other => (s, START_STICKY)

/-- The beep runnable firing on the handler: `run()` calls `playBeep()`
and reschedules itself with `postDelayed`, so the callback stays
scheduled.  A tick with no scheduled callback does nothing. -/
def fireBeepTick (s : RecState) : RecState :=
  if s.pendingTick then { s with beeps := s.beeps + 1 } else s

/-- An event on the serialized control path: a command delivered to the
service, or the handler running the scheduled beep callback. -/
inductive Ev where
  | cmd (c : Cmd)
  | tick
deriving Repr, DecidableEq

/-- One event step. -/
def step (e : Ev) (s : RecState) : RecState :=
  match e with
  | .cmd c => (onStartCommand c s).1
  | .tick => fireBeepTick s

/-- Run a sequence of events from a state. -/
def run (evs : List Ev) (s : RecState) : RecState :=
  evs.foldl (fun s e => step e s) s

lemma run_nil (s : RecState) : run [] s = s := rfl

lemma run_cons (e : Ev) (evs : List Ev) (s : RecState) :
    run (e :: evs) s = run evs (step e s) := rfl

lemma run_append_single (evs : List Ev) (e : Ev) (s : RecState) :
    run (evs ++ [e]) s = step e (run evs s) := by
  simp [run, List.foldl_append]

/-- State of `MainActivity`: its `isRecording` field, whether `setupUI`
has run (the click listeners exist only afterwards), whether the
activity called `finish()`, how many times the permission predicate
`allPermissionsGranted` was evaluated, how many times
`requestPermissions` was issued, the service intent actions sent, and
the toasts shown. -/
structure ActState where
  isRecording : Bool
  uiSetup : Bool
  finished : Bool
  gateQueries : Nat
  permissionRequests : Nat
  sentCommands : List String
  toasts : List String
deriving Repr, DecidableEq

/-- Initial activity state at construction. -/
def actInit : ActState :=
  { isRecording := false
    uiSetup := false
    finished := false
    gateQueries := 0
    permissionRequests := 0
    sentCommands := []
    toasts := [] }

/-- Embedding of `MainActivity.allPermissionsGranted`: evaluates the
platform permission predicate (the environment flag `gate`) and returns
its value; we count each evaluation. -/
def allPermissionsGranted (gate : Bool) (a : ActState) : Bool × ActState :=
  (gate, { a with gateQueries := a.gateQueries + 1 })

/-- Embedding of `MainActivity.setupUI`: wires the click listeners and
renders the idle status; only UI state changes. -/
def setupUI (a : ActState) : ActState :=
  { a with uiSetup := true }

/-- Embedding of `MainActivity.onCreate` after the view lookups: if all
permissions are granted the UI is wired, otherwise
`requestPermissions` is issued.  No service command is sent here. -/
def onCreate (gate : Bool) (a : ActState) : ActState :=
  let p := allPermissionsGranted gate a
  if p.1 then setupUI p.2
  else { p.2 with permissionRequests := p.2.permissionRequests + 1 }

/-- Embedding of `MainActivity.onRequestPermissionsResult` for the
matching request code: re-evaluates the permission predicate; on grant
the UI is wired, on denial a toast is shown and the activity finishes. -/
def onRequestPermissionsResult (gate : Bool) (a : ActState) : ActState :=
  let p := allPermissionsGranted gate a
  if p.1 then setupUI p.2
  else { p.2 with toasts := p.2.toasts ++ ["Permissions required"], finished := true }

/-- A click on the record button: the listener exists only after
`setupUI`; it sends the start or stop action to `RecordingService`,
flips the activity-local `isRecording`, and shows a toast.  No
permission predicate is evaluated here. -/
def clickRecord (a : ActState) : ActState :=
  if a.uiSetup then
    if a.isRecording then
      { a with
          sentCommands := a.sentCommands ++ ["STOP_RECORDING"]
          isRecording := false
          toasts := a.toasts ++ ["Recording stopped"] }
    else
      { a with
          sentCommands := a.sentCommands ++ ["START_RECORDING"]
          isRecording := true
          toasts := a.toasts ++ ["Recording started"] }
  else a

end VLC

namespace VLC.BeepSim

/-- The beep period of `RecordingService` (`BEEP_INTERVAL_MS`). -/
def BEEP_INTERVAL_MS : Nat := 30000

/-- Timed view of the beep machinery: the absolute time at which the
next handler callback is due (if one is scheduled) and the times at
which `playBeep` has fired. -/
structure TimerSt where
  scheduledAt : Option Nat
  beepTimes : List Nat
deriving Repr, DecidableEq

/-- Timed embedding of `startBeepTimer` called at time `now`:
`handler.postDelayed(beepRunnable, BEEP_INTERVAL_MS)` schedules the
first callback one full interval later; nothing has fired yet. -/
def timedStart (now : Nat) : TimerSt :=
  { scheduledAt := some (now + BEEP_INTERVAL_MS), beepTimes := [] }

/-- The handler reaching the scheduled time: the runnable's `run()`
plays the beep and reschedules itself one interval later.  With nothing
scheduled, nothing happens. -/
def fire (t : TimerSt) : TimerSt :=
  match t.scheduledAt with
  | none => t
  | some u =>
      { scheduledAt := some (u + BEEP_INTERVAL_MS)
        beepTimes := t.beepTimes ++ [u] }

/-- Timed embedding of `stopBeepTimer`: `removeCallbacks` drops the
scheduled callback. -/
def cancel (t : TimerSt) : TimerSt :=
  { t with scheduledAt := none }

lemma fire_iterate (now : Nat) : ∀ n : Nat,
    fire^[n] (timedStart now) =
      { scheduledAt := some (now + (n + 1) * BEEP_INTERVAL_MS)
        beepTimes := (List.range n).map (fun k => now + (k + 1) * BEEP_INTERVAL_MS) } := by
  intro n
  induction n with
  | zero => simp [timedStart]
  | succ n ih =>
      rw [Function.iterate_succ_apply', ih]
      simp only [fire, TimerSt.mk.injEq, List.range_succ, List.map_append,
        List.map_cons, List.map_nil, Option.some.injEq]
      constructor
      · ring
      · trivial

lemma fire_cancel_fixed (t : TimerSt) : fire (cancel t) = cancel t := by
  simp [fire, cancel]

end VLC.BeepSim

namespace VLC

/-- A broken-down timestamp, the fields `SimpleDateFormat` reads from
the current `Date`. -/
structure DateTime where
  year : Nat
  month : Nat
  day : Nat
  hour : Nat
  minute : Nat
  second : Nat
deriving Repr, DecidableEq

/-- The decimal digit character of `n` modulo 10. -/
def digitChar (n : Nat) : Char :=
  match n % 10 with
  | 0 => '0'
  | 1 => '1'
  | 2 => '2'
  | 3 => '3'
  | 4 => '4'
  | 5 => '5'
  | 6 => '6'
  | 7 => '7'
  | 8 => '8'
  | _ => '9'

/-- Two-digit zero-padded decimal rendering, as `SimpleDateFormat`
produces for an in-range two-digit field. -/
def pad2 (n : Nat) : List Char :=
  [digitChar (n / 10), digitChar n]

/-- Four-digit zero-padded decimal rendering, as `SimpleDateFormat`
produces for an in-range year. -/
def pad4 (n : Nat) : List Char :=
  [digitChar (n / 1000), digitChar (n / 100), digitChar (n / 10), digitChar n]

/-- Model of `SimpleDateFormat("yyyyMMdd_HHmmss", Locale.US).format`,
faithful for in-range field values (the platform formatter is
environment to this repository; `startRecording` only splices its
output into the file name). -/
def timestampFormat (d : DateTime) : String :=
  String.mk (pad4 d.year ++ pad2 d.month ++ pad2 d.day ++ ['_'] ++
    pad2 d.hour ++ pad2 d.minute ++ pad2 d.second)

/-- The file name `startRecording` builds for timestamp `d`:
`File(videoDir, "VID_" + timestamp + ".mp4")`. -/
def outputFileName (d : DateTime) : String :=
  "VID_" ++ timestampFormat d ++ ".mp4"

/-- Modelled from the spec words: the naming contract
`<fixed-prefix>_<YYYYMMDD_HHMMSS>.<fixed-extension>` with the concrete
prefix `VID` and extension `mp4` — the name is `VID_`, then a
15-character timestamp whose character at index 8 is the underscore
separating `YYYYMMDD` from `HHMMSS` and whose other characters are
decimal digits, then `.mp4`. -/
def specOutputNameContract (s : String) : Prop :=
  ∃ t : List Char,
    s.data = "VID_".data ++ t ++ ".mp4".data ∧
    t.length = 15 ∧
    t.getD 8 ' ' = '_' ∧
    ∀ i : Nat, i < 15 → i ≠ 8 → (t.getD i ' ').isDigit = true

lemma digitChar_isDigit (n : Nat) : (digitChar n).isDigit = true := by
  unfold digitChar
  have h10 : n % 10 < 10 := Nat.mod_lt _ (by norm_num)
  interval_cases h : n % 10 <;> decide

/-- Invariant tying the handler to the runnable field: whenever a beep
callback is scheduled, `beepRunnable` is non-null. -/
def BeepInv (s : RecState) : Prop :=
  s.pendingTick = true → s.beepRunnable = true

lemma beepInv_init : BeepInv init := by
  intro h
  simp [init] at h

lemma stopBeepTimer_pendingTick (s : RecState) (h : BeepInv s) :
    (stopBeepTimer s).pendingTick = false := by
  cases hb : s.beepRunnable with
  | true => simp [stopBeepTimer, hb]
  | false =>
      simp only [stopBeepTimer, hb, Bool.false_eq_true, if_false]
      cases hp : s.pendingTick with
      | false => simp [hp]
      | true => simp [h hp] at hb

lemma stopBeepTimer_beepRunnable (s : RecState) :
    (stopBeepTimer s).beepRunnable = false := by
  unfold stopBeepTimer
  split <;> rfl

lemma stopBeepTimer_mediaRecorder (s : RecState) :
    (stopBeepTimer s).mediaRecorder = s.mediaRecorder := by
  unfold stopBeepTimer
  split <;> rfl

lemma stopRecording_pendingTick (stopOk : Bool) (s : RecState) (h : BeepInv s) :
    (stopRecording stopOk s).pendingTick = false := by
  have hp := stopBeepTimer_pendingTick s h
  unfold stopRecording
  cases hmr : (stopBeepTimer s).mediaRecorder with
  | none => simp [hmr, hp]
  | some k => cases stopOk <;> simp [hmr, hp]

lemma stopRecording_beepRunnable (stopOk : Bool) (s : RecState) :
    (stopRecording stopOk s).beepRunnable = false := by
  have hb := stopBeepTimer_beepRunnable s
  unfold stopRecording
  cases hmr : (stopBeepTimer s).mediaRecorder with
  | none => simp [hmr, hb]
  | some k => cases stopOk <;> simp [hmr, hb]

lemma stopRecording_notifications (stopOk : Bool) (s : RecState) :
    (stopRecording stopOk s).notifications = s.notifications := by
  have hn : (stopBeepTimer s).notifications = s.notifications := by
    unfold stopBeepTimer
    split <;> rfl
  unfold stopRecording
  cases hmr : (stopBeepTimer s).mediaRecorder with
  | none => simp [hmr, hn]
  | some k => cases stopOk <;> simp [hmr, hn]

lemma stopRecording_outputFile (stopOk : Bool) (s : RecState) :
    (stopRecording stopOk s).outputFile = s.outputFile := by
  have hn : (stopBeepTimer s).outputFile = s.outputFile := by
    unfold stopBeepTimer
    split <;> rfl
  unfold stopRecording
  cases hmr : (stopBeepTimer s).mediaRecorder with
  | none => simp [hmr, hn]
  | some k => cases stopOk <;> simp [hmr, hn]

lemma fireBeepTick_pendingTick (s : RecState) :
    (fireBeepTick s).pendingTick = s.pendingTick := by
  unfold fireBeepTick
  split <;> rfl

lemma fireBeepTick_beepRunnable (s : RecState) :
    (fireBeepTick s).beepRunnable = s.beepRunnable := by
  unfold fireBeepTick
  split <;> rfl

lemma fireBeepTick_notifications (s : RecState) :
    (fireBeepTick s).notifications = s.notifications := by
  unfold fireBeepTick
  split <;> rfl

lemma step_tick (s : RecState) : step Ev.tick s = fireBeepTick s := rfl

lemma beepInv_of_pendingTick_false (s : RecState)
    (h : s.pendingTick = false) : BeepInv s := by
  intro hp
  rw [h] at hp
  cases hp

lemma beepInv_step (e : Ev) (s : RecState) (h : BeepInv s) :
    BeepInv (step e s) := by
  cases e with
  | tick =>
      intro hp
      rw [step_tick, fireBeepTick_pendingTick] at hp
      rw [step_tick, fireBeepTick_beepRunnable]
      exact h hp
  | cmd c =>
      cases c with
      | other => exact h
      | stop stopOk =>
          intro hp
          simp only [step, onStartCommand] at hp
          rw [stopRecording_pendingTick stopOk s h] at hp
          cases hp
      | start ts applyOk cleanupStopOk =>
          cases hr : s.isRecording with
          | true => simpa [step, onStartCommand, hr] using h
          | false =>
              simp only [step, onStartCommand, hr, Bool.false_eq_true, if_false]
              unfold startRecording
              cases applyOk with
              | true => intro _; rfl
              | false =>
                  simp only [Bool.false_eq_true, if_false]
                  apply beepInv_of_pendingTick_false
                  apply stopRecording_pendingTick
                  intro hp
                  exact h hp

lemma beepInv_run (evs : List Ev) (s : RecState) (h : BeepInv s) :
    BeepInv (run evs s) := by
  induction evs generalizing s with
  | nil => exact h
  | cons e evs ih => exact ih (step e s) (beepInv_step e s h)

lemma fireBeepTick_fixed (s : RecState) (h : s.pendingTick = false) :
    fireBeepTick s = s := by
  simp [fireBeepTick, h]

lemma notifications_step (e : Ev) (s : RecState) :
    (step e s).notifications = s.notifications ∨
    (step e s).notifications = s.notifications ++ ["Recording..."] := by
  cases e with
  | tick =>
      left
      rw [step_tick]
      exact fireBeepTick_notifications s
  | cmd c =>
      cases c with
      | other => left; rfl
      | stop stopOk =>
          left
          simp only [step, onStartCommand]
          exact stopRecording_notifications stopOk s
      | start ts applyOk cleanupStopOk =>
          cases hr : s.isRecording with
          | true => left; simp [step, onStartCommand, hr]
          | false =>
              simp only [step, onStartCommand, hr, Bool.false_eq_true, if_false]
              unfold startRecording
              cases applyOk with
              | true => right; rfl
              | false =>
                  left
                  simp only [Bool.false_eq_true, if_false]
                  exact stopRecording_notifications _ _

lemma notifications_all_run (evs : List Ev) (s : RecState)
    (h : s.notifications.all (fun x => x == "Recording...") = true) :
    (run evs s).notifications.all (fun x => x == "Recording...") = true := by
  induction evs generalizing s with
  | nil => exact h
  | cons e evs ih =>
      rw [run_cons]
      apply ih
      rcases notifications_step e s with he | he <;> rw [he]
      · exact h
      · simp [List.all_append, h]

lemma startRecording_outputFile (ts : String) (applyOk cleanupStopOk : Bool)
    (s : RecState) :
    (startRecording ts applyOk cleanupStopOk s).outputFile
      = some ("VID_" ++ ts ++ ".mp4") := by
  unfold startRecording
  cases applyOk with
  | true => rfl
  | false =>
      simp only [Bool.false_eq_true, if_false]
      rw [stopRecording_outputFile]

/-- C1: the single-release invariant fails on the code.  A `requestStart`
whose configure/prepare/start chain throws enters the catch block, whose
`stopRecording()` call invokes `MediaRecorder.stop()` on a recorder that
was never started; when that call throws (its documented behavior
there), the catch in `stopRecording` swallows it before `release()` and
the field resets run.  The acquired recorder stays held while
`isRecording` is false — "held iff Active" fails — and a subsequent
successful start overwrites the field, leaving two live handles of which
one is leaked forever and none was ever released. -/
theorem capture_handle_leak_on_failed_cleanup :
    (run [Ev.cmd (Cmd.start "20250101_120000" false false)] init).mediaRecorder = some 0 ∧
    (run [Ev.cmd (Cmd.start "20250101_120000" false false)] init).isRecording = false ∧
    (run [Ev.cmd (Cmd.start "20250101_120000" false false)] init).released = [] ∧
    (run [Ev.cmd (Cmd.start "20250101_120000" false false),
          Ev.cmd (Cmd.start "20250101_120100" true false)] init).live = [0, 1] ∧
    (run [Ev.cmd (Cmd.start "20250101_120000" false false),
          Ev.cmd (Cmd.start "20250101_120100" true false)] init).released = [] := by
  refine ⟨rfl, rfl, rfl, rfl, rfl⟩

/-- C2: `stopRecording` does not release after a failed finalize.  In
the source the calls `reset()`, `release()`, `mediaRecorder = null` and
`isRecording = false` all sit inside the same try block, after `stop()`;
when `MediaRecorder.stop()` throws, the catch block only logs, so the
handle stays held, nothing is released, and the service is not back in
the idle configuration — contradicting the claim that release is
unconditional once finalize is attempted. -/
theorem failed_finalize_skips_release :
    (run [Ev.cmd (Cmd.start "20250101_120000" true true),
          Ev.cmd (Cmd.stop false)] init).mediaRecorder = some 0 ∧
    (run [Ev.cmd (Cmd.start "20250101_120000" true true),
          Ev.cmd (Cmd.stop false)] init).isRecording = true ∧
    (run [Ev.cmd (Cmd.start "20250101_120000" true true),
          Ev.cmd (Cmd.stop false)] init).live = [0] ∧
    (run [Ev.cmd (Cmd.start "20250101_120000" true true),
          Ev.cmd (Cmd.stop false)] init).released = [] := by
  refine ⟨rfl, rfl, rfl, rfl⟩

/-- C3: the defensive cleanup after a failed `startRecording` neither
guarantees release nor reports the failure.  When the configure /
prepare / start chain throws and the cleanup call to
`MediaRecorder.stop()` also throws (a recorder that never started), the
partially acquired recorder is left held and unreleased, and no status
text is ever presented — the failure is only written to the log. -/
theorem failed_start_cleanup_leaves_handle_held :
    (run [Ev.cmd (Cmd.start "20250101_120000" false false)] init).live = [0] ∧
    (run [Ev.cmd (Cmd.start "20250101_120000" false false)] init).released = [] ∧
    (run [Ev.cmd (Cmd.start "20250101_120000" false false)] init).notifications = [] ∧
    (run [Ev.cmd (Cmd.start "20250101_120000" false false)] init).isRecording = false := by
  refine ⟨rfl, rfl, rfl, rfl⟩

/-- C4: a Start command delivered while `isRecording` is true is a
complete no-op — `onStartCommand` skips `startRecording`, returns
`START_STICKY`, and every field of the service state (including
`outputFile`, the handle accounting, the timer, and the notification
history) is unchanged. -/
theorem start_while_recording_noop (s : RecState) (ts : String)
    (applyOk cleanupStopOk : Bool) (h : s.isRecording = true) :
    onStartCommand (Cmd.start ts applyOk cleanupStopOk) s = (s, START_STICKY) := by
  simp [onStartCommand, h]

/-- Witness for C4 at a concrete active state reached by a successful
start. -/
theorem start_while_recording_noop_witness :
    (run [Ev.cmd (Cmd.start "20250101_120000" true true)] init).isRecording = true ∧
    onStartCommand (Cmd.start "20250101_130000" true true)
        (run [Ev.cmd (Cmd.start "20250101_120000" true true)] init)
      = (run [Ev.cmd (Cmd.start "20250101_120000" true true)] init, START_STICKY) :=
  ⟨rfl, start_while_recording_noop _ "20250101_130000" true true rfl⟩

/-- C5 counterexample: the claim fails on the code.  `RecordingService`
never consults any permission predicate, so a Start command delivered
while the permission gate reports unauthorized behaves exactly as this
gate-independent run: the capture handle is acquired, recording becomes
active, and the only status text is the recording notification — no
`PermissionDenied` status exists.  On the activity side the predicate
`allPermissionsGranted` is evaluated once in `onCreate`, not once per
start: a record-button click changes the query count by zero. -/
theorem unauthorized_start_still_acquires :
    (run [Ev.cmd (Cmd.start "20250601_100000" true true)] init).isRecording = true ∧
    (run [Ev.cmd (Cmd.start "20250601_100000" true true)] init).live = [0] ∧
    (run [Ev.cmd (Cmd.start "20250601_100000" true true)] init).notifications
      = ["Recording..."] ∧
    (onCreate false actInit).gateQueries = 1 ∧
    (onCreate false actInit).uiSetup = false ∧
    (clickRecord (onCreate false actInit)).gateQueries = 1 ∧
    (clickRecord (onCreate false actInit)).sentCommands = [] := by
  refine ⟨rfl, rfl, rfl, rfl, rfl, rfl, rfl⟩

/-- C5 amended: permissions are checked once at activity creation, not
per start request.  When `onCreate` finds them ungranted it evaluates
the predicate exactly once, wires no UI and sends no service command;
when the permission result is again a denial the activity finishes
without ever sending a command; a click while the UI is unwired sends
nothing; and across every service run the only status text ever
presented is the recording notification — no `PermissionDenied` status
is representable. -/
theorem permission_gate_checked_at_creation_only (evs : List Ev) :
    (run evs init).notifications.all (fun x => x == "Recording...") = true ∧
    (onCreate false actInit).uiSetup = false ∧
    (onCreate false actInit).gateQueries = 1 ∧
    (onCreate false actInit).sentCommands = [] ∧
    (onRequestPermissionsResult false (onCreate false actInit)).finished = true ∧
    (onRequestPermissionsResult false (onCreate false actInit)).sentCommands = [] ∧
    (clickRecord (onCreate false actInit)).sentCommands = [] :=
  ⟨notifications_all_run evs init rfl, rfl, rfl, rfl, rfl, rfl, rfl⟩

/-- C6: `stopRecording` in the idle configuration (no recorder held, not
recording, no beep runnable) is the identity on the service state — in
particular it performs no release, posts no status text, and a second
stop behaves exactly like the first. -/
theorem stop_when_idle_noop (stopOk : Bool) (s : RecState)
    (h1 : s.mediaRecorder = none) (h2 : s.isRecording = false)
    (h3 : s.beepRunnable = false) :
    stopRecording stopOk s = s := by
  obtain ⟨mr, br, ir, o, nh, lv, rl, pt, nt, bp, sc⟩ := s
  dsimp only at h1 h2 h3
  subst h1
  subst h2
  subst h3
  rfl

/-- Witness for C6 at the initial state. -/
theorem stop_when_idle_noop_witness :
    init.mediaRecorder = none ∧ init.isRecording = false ∧
    init.beepRunnable = false ∧ stopRecording true init = init :=
  ⟨rfl, rfl, rfl, stop_when_idle_noop true init rfl rfl rfl⟩

/-- C7: after any `requestStop` — on every path, including a failed
finalize — the beep callback has been unscheduled and the runnable
nulled (`stopBeepTimer` runs first in `stopRecording`, before the
capture handle is touched, and cannot throw), so any number of
subsequent handler ticks fire zero beeps and change nothing. -/
theorem stop_cancels_all_future_ticks (evs : List Ev) (stopOk : Bool) (n : Nat) :
    (run (evs ++ [Ev.cmd (Cmd.stop stopOk)]) init).pendingTick = false ∧
    (run (evs ++ [Ev.cmd (Cmd.stop stopOk)]) init).beepRunnable = false ∧
    fireBeepTick^[n] (run (evs ++ [Ev.cmd (Cmd.stop stopOk)]) init)
      = run (evs ++ [Ev.cmd (Cmd.stop stopOk)]) init := by
  have hinv : BeepInv (run evs init) := beepInv_run evs init beepInv_init
  have hpt : (run (evs ++ [Ev.cmd (Cmd.stop stopOk)]) init).pendingTick = false := by
    rw [run_append_single]
    exact stopRecording_pendingTick stopOk (run evs init) hinv
  have hbr : (run (evs ++ [Ev.cmd (Cmd.stop stopOk)]) init).beepRunnable = false := by
    rw [run_append_single]
    exact stopRecording_beepRunnable stopOk (run evs init)
  exact ⟨hpt, hbr,
    Function.iterate_fixed (fireBeepTick_fixed _ hpt) n⟩

/-- C8: the beep timer started at time `now` fires its first tick one
full interval after `now` — never immediately — and its k-th tick at
`now + k * BEEP_INTERVAL_MS`; the next callback after `n` ticks is due a
further full interval later; and once cancelled, any number of handler
steps fires nothing more. -/
theorem beep_first_tick_after_full_interval (now n m : Nat) :
    (BeepSim.fire^[n] (BeepSim.timedStart now)).beepTimes
      = (List.range n).map (fun k => now + (k + 1) * BeepSim.BEEP_INTERVAL_MS) ∧
    (BeepSim.fire^[n] (BeepSim.timedStart now)).scheduledAt
      = some (now + (n + 1) * BeepSim.BEEP_INTERVAL_MS) ∧
    BeepSim.fire^[m] (BeepSim.cancel (BeepSim.fire^[n] (BeepSim.timedStart now)))
      = BeepSim.cancel (BeepSim.fire^[n] (BeepSim.timedStart now)) := by
  refine ⟨?_, ?_, ?_⟩
  · rw [BeepSim.fire_iterate]
  · rw [BeepSim.fire_iterate]
  · exact Function.iterate_fixed (BeepSim.fire_cancel_fixed _) m

/-- C9: a `requestStart` from a non-recording state stores, for the
timestamp `d` the formatter produced, exactly the name
`VID_<yyyyMMdd_HHmmss>.mp4` in `outputFile`, and that name satisfies the
spec naming contract: the fixed prefix `VID`, an underscore, a
15-character seconds-resolution timestamp whose ninth character is the
date/time underscore and whose other characters are decimal digits, and
the fixed extension `.mp4`. -/
theorem output_name_matches_contract (d : DateTime)
    (applyOk cleanupStopOk : Bool) (s : RecState) (h : s.isRecording = false) :
    ((onStartCommand (Cmd.start (timestampFormat d) applyOk cleanupStopOk) s).1).outputFile
      = some (outputFileName d) ∧
    specOutputNameContract (outputFileName d) := by
  constructor
  · simp only [onStartCommand, h, Bool.false_eq_true, if_false]
    exact startRecording_outputFile (timestampFormat d) applyOk cleanupStopOk s
  · refine ⟨(timestampFormat d).data, ?_, ?_, ?_, ?_⟩
    · simp [outputFileName, String.data_append]
    · rfl
    · rfl
    · intro i h15 h8
      interval_cases i
      · exact digitChar_isDigit _
      · exact digitChar_isDigit _
      · exact digitChar_isDigit _
      · exact digitChar_isDigit _
      · exact digitChar_isDigit _
      · exact digitChar_isDigit _
      · exact digitChar_isDigit _
      · exact digitChar_isDigit _
      · exact absurd rfl h8
      · exact digitChar_isDigit _
      · exact digitChar_isDigit _
      · exact digitChar_isDigit _
      · exact digitChar_isDigit _
      · exact digitChar_isDigit _
      · exact digitChar_isDigit _

/-- Witness for C9 at a concrete timestamp and the initial state. -/
theorem output_name_matches_contract_witness :
    init.isRecording = false ∧
    (((onStartCommand
          (Cmd.start (timestampFormat ⟨2025, 6, 1, 10, 30, 0⟩) true true) init).1).outputFile
        = some (outputFileName ⟨2025, 6, 1, 10, 30, 0⟩) ∧
      specOutputNameContract (outputFileName ⟨2025, 6, 1, 10, 30, 0⟩)) :=
  ⟨rfl, output_name_matches_contract ⟨2025, 6, 1, 10, 30, 0⟩ true true init rfl⟩

/-- C10: a command whose action is neither Start nor Stop — including
the null intent of a sticky restart — falls through the `when` in
`onStartCommand`: the service state is returned unchanged in every
field, no side effect is recorded, and the result is `START_STICKY`. -/
theorem unknown_action_noop (s : RecState) :
    onStartCommand Cmd.other s = (s, START_STICKY) := rfl

end VLC
